import Mathlib

/-!
Shallow embedding of the offline caching / request-interception layer of
`src/sw.js` (the service worker of the topview dashboard).

The worker registers three event handlers:

* `install`: `evt.waitUntil(caches.open(CACHE_NAME).then(cache => cache.addAll(ASSETS)))`
  followed by an unconditional `self.skipWaiting()`;
* `activate`: `evt.waitUntil(clients.claim())`;
* `fetch`: non-GET requests return early (default network handling);
  for GET requests: `evt.respondWith(fetch(evt.request).catch(() => caches.match(evt.request)))`.

The embedding models the cache namespace as an association list from URL
keys to stored responses, the network as an explicit `Except` outcome, and
each handler as a pure function on this state.  `Cache.put` follows the
batch cache operation of the platform: an entry whose key is already
present is overwritten in place, otherwise the new entry is appended.
-/

namespace SW

/-- A network-level failure (any rejection of the network primitive). -/
inductive NetErr
  | offline
  | dnsFailure
  | timeout
deriving DecidableEq, Repr

/-- A stored/received response: status, headers and body bytes. -/
structure Response where
  status : Nat
  headers : List (String × String)
  body : List Nat
deriving DecidableEq, Repr

/-- An intercepted request: method and URL (its identity). -/
structure Request where
  method : String
  url : String
deriving DecidableEq, Repr

/-- The cache namespace: entries keyed by request URL (only GET requests
are ever stored, so the URL is the identity). -/
abbrev Cache := List (String × Response)

/-- `const CACHE_NAME = 'topview-shell-v1'` of `src/sw.js`. -/
def CACHE_NAME : String := "topview-shell-v1"

/-- `const ASSETS = ['/', '/index.html', '/manifest.json']` of `src/sw.js`. -/
def ASSETS : List String := ["/", "/index.html", "/manifest.json"]

/-- `caches.match` / `cache.match`: look up the first entry whose key is
the request URL. -/
def cacheLookup (c : Cache) (k : String) : Option Response :=
  (List.find? (fun p => p.1 = k) c).map Prod.snd

/-- `cache.put`: overwrite every entry with a matching key in place, or
append the entry when the key is absent. -/
def cachePut (c : Cache) (k : String) (v : Response) : Cache :=
  if List.any c (fun p => p.1 = k) then
    List.map (fun p => if p.1 = k then (k, v) else p) c
  else
    c ++ [(k, v)]

/-- Fetch every asset of the list in order; the first network failure
aborts the whole batch (the semantics of `cache.addAll`: all fetches must
succeed before anything is stored). -/
def fetchAll (f : String → Except NetErr Response) : List String → Except NetErr (List (String × Response))
  | [] => .ok []
  | a :: rest =>
    match f a with
    | .error e => .error e
    | .ok r =>
      match fetchAll f rest with
      | .error e => .error e
      | .ok l => .ok ((a, r) :: l)

/-- Store a batch of fetched entries, in order, overwriting existing keys. -/
def putAll (c : Cache) (entries : List (String × Response)) : Cache :=
  List.foldl (fun acc p => cachePut acc p.1 p.2) c entries

/-- `cache.addAll(assets)`: fetch all assets; if all succeed store every
entry, otherwise fail without storing anything. -/
def cacheAddAll (f : String → Except NetErr Response) (c : Cache) (assets : List String) :
    Except NetErr Cache :=
  match fetchAll f assets with
  | .error e => .error e
  | .ok entries => .ok (putAll c entries)

/-- Result of running the install handler: the awaited population of the
cache namespace (the argument of `evt.waitUntil`), and whether
`self.skipWaiting()` was issued. -/
structure InstallResult where
  populate : Except NetErr Cache
  skipWaitingCalled : Bool
deriving Repr

/-- The `install` event handler of `src/sw.js`: the awaited operation is
`caches.open(CACHE_NAME).then(cache => cache.addAll(ASSETS))`, and
`self.skipWaiting()` is executed on the handler's synchronous path. -/
def installHandler (f : String → Except NetErr Response) (c : Cache) : InstallResult :=
  { populate := cacheAddAll f c ASSETS
    skipWaitingCalled := true }

/-- Lifecycle states of the layer. -/
inductive SWState
  | uninstalled
  | installed
  | active
deriving DecidableEq, Repr

/-- The state reached after the install event: `installed` exactly when the
awaited population succeeded, otherwise the install attempt failed and the
layer stays uninstalled. -/
def stateAfterInstall (f : String → Except NetErr Response) (c : Cache) : SWState :=
  match (installHandler f c).populate with
  | .ok _ => .installed
  | .error _ => .uninstalled

/-- The `activate` event handler: an installed worker becomes active
(`clients.claim()`); any other state is unchanged. -/
def activateHandler : SWState → SWState
  | .installed => .active
  | s => s

/-- The final outcome the caller observes for one intercepted request. -/
inductive FetchOutcome
  | passthrough (net : Except NetErr Response)
  | responded (r : Response)
  | failed
deriving Repr

/-- One run of the fetch handler: the outcome delivered to the caller, the
cache namespace afterwards, and how many cache lookups were performed. -/
structure FetchStep where
  outcome : FetchOutcome
  cacheAfter : Cache
  cacheReads : Nat
deriving Repr

/-- The `fetch` event handler of `src/sw.js`.  Non-GET requests return
early (default network handling, cache untouched).  For GET requests the
handler responds with `fetch(evt.request).catch(() => caches.match(evt.request))`:
the network response on success; on rejection a single cache lookup, whose
hit is the response and whose miss resolves to no response, which the host
delivers to the caller as a network failure. -/
def fetchHandler (req : Request) (net : Except NetErr Response) (c : Cache) : FetchStep :=
  if req.method ≠ "GET" then
    { outcome := .passthrough net, cacheAfter := c, cacheReads := 0 }
  else
    match net with
    | .ok r => { outcome := .responded r, cacheAfter := c, cacheReads := 0 }
    | .error _ =>
      match cacheLookup c req.url with
      | some r => { outcome := .responded r, cacheAfter := c, cacheReads := 1 }
      | none => { outcome := .failed, cacheAfter := c, cacheReads := 1 }

/-- The cache has at least one entry with key `k`, and every entry with
key `k` stores exactly the response `v`. -/
def keyIs (c : Cache) (k : String) (v : Response) : Prop :=
  List.any c (fun p => p.1 = k) = true ∧ ∀ p ∈ c, p.1 = k → p.2 = v

theorem keyIs_cachePut (c : Cache) (k : String) (v : Response) :
    keyIs (cachePut c k v) k v := by
  unfold cachePut keyIs
  by_cases hany : (List.any c fun p => decide (p.1 = k)) = true
  · rw [if_pos hany]
    refine ⟨?_, ?_⟩
    · rcases List.any_eq_true.mp hany with ⟨p, hp, hpk⟩
      rw [decide_eq_true_eq] at hpk
      refine List.any_eq_true.mpr ⟨(k, v), List.mem_map.mpr ⟨p, hp, ?_⟩, by simp⟩
      rw [if_pos hpk]
    · intro p hp hk
      rcases List.mem_map.mp hp with ⟨q, hq, hqe⟩
      by_cases hq1 : q.1 = k
      · rw [if_pos hq1] at hqe
        rw [← hqe]
      · rw [if_neg hq1] at hqe
        exact absurd (show q.1 = k by rw [hqe]; exact hk) hq1
  · rw [if_neg hany]
    refine ⟨?_, ?_⟩
    · exact List.any_eq_true.mpr
        ⟨(k, v), List.mem_append_right _ (List.mem_singleton.mpr rfl), by simp⟩
    · intro p hp hk
      rcases List.mem_append.mp hp with h | h
      · exact absurd (List.any_eq_true.mpr ⟨p, h, decide_eq_true hk⟩) hany
      · rw [List.mem_singleton.mp h]

theorem map_overwrite_eq_self (t : Cache) (k : String) (v : Response)
    (hall : ∀ p ∈ t, p.1 = k → p.2 = v) :
    List.map (fun p => if p.1 = k then (k, v) else p) t = t := by
  induction t with
  | nil => rfl
  | cons p t ih =>
    rw [List.map_cons]
    congr 1
    · by_cases hpk : p.1 = k
      · rw [if_pos hpk]
        have h2 := hall p (List.mem_cons_self p t) hpk
        rw [← hpk, ← h2]
      · rw [if_neg hpk]
    · exact ih (fun q hq hk => hall q (List.mem_cons_of_mem p hq) hk)

theorem cachePut_self (c : Cache) (k : String) (v : Response)
    (h : keyIs c k v) : cachePut c k v = c := by
  obtain ⟨hany, hall⟩ := h
  unfold cachePut
  rw [if_pos hany]
  exact map_overwrite_eq_self c k v hall

theorem keyIs_cachePut_other (c : Cache) (k k2 : String) (v v2 : Response)
    (hne : k2 ≠ k) (h : keyIs c k v) : keyIs (cachePut c k2 v2) k v := by
  obtain ⟨hany, hall⟩ := h
  unfold cachePut keyIs
  by_cases h2 : (List.any c fun p => decide (p.1 = k2)) = true
  · rw [if_pos h2]
    refine ⟨?_, ?_⟩
    · rcases List.any_eq_true.mp hany with ⟨p, hp, hpk⟩
      rw [decide_eq_true_eq] at hpk
      have hpk2 : ¬ p.1 = k2 := fun hc => hne (by rw [← hc]; exact hpk)
      refine List.any_eq_true.mpr ⟨p, List.mem_map.mpr ⟨p, hp, ?_⟩, decide_eq_true hpk⟩
      rw [if_neg hpk2]
    · intro p hp hk
      rcases List.mem_map.mp hp with ⟨q, hq, hqe⟩
      by_cases hq2 : q.1 = k2
      · rw [if_pos hq2] at hqe
        exfalso
        apply hne
        rw [← hqe] at hk
        exact hk
      · rw [if_neg hq2] at hqe
        rw [← hqe]
        exact hall q hq (by rw [hqe]; exact hk)
  · rw [if_neg h2]
    refine ⟨?_, ?_⟩
    · rcases List.any_eq_true.mp hany with ⟨p, hp, hpk⟩
      exact List.any_eq_true.mpr ⟨p, List.mem_append_left _ hp, hpk⟩
    · intro p hp hk
      rcases List.mem_append.mp hp with hmem | hmem
      · exact hall p hmem hk
      · exfalso
        apply hne
        rw [List.mem_singleton.mp hmem] at hk
        exact hk

theorem fetchAll_error_of_mem (f : String → Except NetErr Response) (e : NetErr) :
    ∀ (assets : List String) (a : String), a ∈ assets → f a = .error e →
      ∃ e2, fetchAll f assets = .error e2 := by
  intro assets
  induction assets with
  | nil =>
    intro a ha hf
    exact absurd ha (List.not_mem_nil a)
  | cons b t ih =>
    intro a ha hf
    unfold fetchAll
    cases hb : f b with
    | error e2 => exact ⟨e2, rfl⟩
    | ok r =>
      have hat : a ∈ t := by
        rcases List.mem_cons.mp ha with h | h
        · rw [h] at hf
          rw [hf] at hb
          simp at hb
        · exact h
      rcases ih a hat hf with ⟨e2, he2⟩
      rw [he2]
      exact ⟨e2, rfl⟩

end SW

/-- Claim C1: for every intercepted GET request whose identity has no
matching entry in the cache namespace, a network failure propagates to the
caller as the final outcome (`NetworkUnavailable`, modelled as
`FetchOutcome.failed`): the layer substitutes no other response. -/
theorem C1_fetch_miss_failure_propagates (req : SW.Request) (e : SW.NetErr) (c : SW.Cache)
    (hget : req.method = "GET") (hmiss : SW.cacheLookup c req.url = none) :
    SW.fetchHandler req (.error e) c =
      { outcome := .failed, cacheAfter := c, cacheReads := 1 } := by
  simp [SW.fetchHandler, hget, hmiss]

/-- Concrete witness for C1: a GET to an uncached URL while offline. -/
theorem C1_fetch_miss_failure_propagates_witness :
    (SW.Request.mk "GET" "/api/data").method = "GET" ∧
    SW.cacheLookup [] (SW.Request.mk "GET" "/api/data").url = none ∧
    SW.fetchHandler (SW.Request.mk "GET" "/api/data") (.error .offline) [] =
      { outcome := .failed, cacheAfter := [], cacheReads := 1 } :=
  ⟨rfl, rfl, C1_fetch_miss_failure_propagates (SW.Request.mk "GET" "/api/data") .offline [] rfl rfl⟩

/-- Claim C2: for every intercepted GET request whose identity has a
matching cache entry, a network failure makes the layer return exactly the
stored response (the very value held in the cache namespace). -/
theorem C2_fetch_hit_failure_returns_cached (req : SW.Request) (e : SW.NetErr)
    (c : SW.Cache) (r : SW.Response)
    (hget : req.method = "GET") (hhit : SW.cacheLookup c req.url = some r) :
    SW.fetchHandler req (.error e) c =
      { outcome := .responded r, cacheAfter := c, cacheReads := 1 } := by
  simp [SW.fetchHandler, hget, hhit]

/-- Concrete witness for C2: a cached GET served from the cache while the
network rejects. -/
theorem C2_fetch_hit_failure_returns_cached_witness :
    (SW.Request.mk "GET" "/index.html").method = "GET" ∧
    SW.cacheLookup [("/index.html", SW.Response.mk 200 [] [72, 105])]
      (SW.Request.mk "GET" "/index.html").url = some (SW.Response.mk 200 [] [72, 105]) ∧
    SW.fetchHandler (SW.Request.mk "GET" "/index.html") (.error .dnsFailure)
        [("/index.html", SW.Response.mk 200 [] [72, 105])] =
      { outcome := .responded (SW.Response.mk 200 [] [72, 105]),
        cacheAfter := [("/index.html", SW.Response.mk 200 [] [72, 105])],
        cacheReads := 1 } :=
  ⟨rfl, rfl,
    C2_fetch_hit_failure_returns_cached (SW.Request.mk "GET" "/index.html") .dnsFailure
      [("/index.html", SW.Response.mk 200 [] [72, 105])] (SW.Response.mk 200 [] [72, 105])
      rfl rfl⟩

/-- Claim C3: for every intercepted GET request, a network success is
returned to the caller unmodified, for every cache content — in particular
also when a matching cache entry exists — and without any cache lookup. -/
theorem C3_fetch_success_returns_network (req : SW.Request) (r : SW.Response) (c : SW.Cache)
    (hget : req.method = "GET") :
    SW.fetchHandler req (.ok r) c =
      { outcome := .responded r, cacheAfter := c, cacheReads := 0 } := by
  simp [SW.fetchHandler, hget]

/-- Concrete witness for C3: the network response wins although the cache
holds a different response for the same URL. -/
theorem C3_fetch_success_returns_network_witness :
    (SW.Request.mk "GET" "/").method = "GET" ∧
    SW.cacheLookup [("/", SW.Response.mk 200 [] [2])] "/" = some (SW.Response.mk 200 [] [2]) ∧
    SW.Response.mk 200 [] [1] ≠ SW.Response.mk 200 [] [2] ∧
    SW.fetchHandler (SW.Request.mk "GET" "/") (.ok (SW.Response.mk 200 [] [1]))
        [("/", SW.Response.mk 200 [] [2])] =
      { outcome := .responded (SW.Response.mk 200 [] [1]),
        cacheAfter := [("/", SW.Response.mk 200 [] [2])], cacheReads := 0 } :=
  ⟨rfl, rfl, by decide,
    C3_fetch_success_returns_network (SW.Request.mk "GET" "/") (SW.Response.mk 200 [] [1])
      [("/", SW.Response.mk 200 [] [2])] rfl⟩

/-- Claim C4: every intercepted non-GET request is forwarded unmodified to
the network with no cache read and no cache write; the network result or
error passes through unchanged. -/
theorem C4_non_get_passthrough (req : SW.Request) (net : Except SW.NetErr SW.Response)
    (c : SW.Cache) (h : req.method ≠ "GET") :
    SW.fetchHandler req net c =
      { outcome := .passthrough net, cacheAfter := c, cacheReads := 0 } := by
  simp [SW.fetchHandler, h]

/-- Concrete witness for C4: a POST bypasses the layer even when the
network fails and the URL is cached. -/
theorem C4_non_get_passthrough_witness :
    (SW.Request.mk "POST" "/").method ≠ "GET" ∧
    SW.fetchHandler (SW.Request.mk "POST" "/") (.error .offline)
        [("/", SW.Response.mk 200 [] [2])] =
      { outcome := .passthrough (.error .offline),
        cacheAfter := [("/", SW.Response.mk 200 [] [2])], cacheReads := 0 } :=
  ⟨by decide,
    C4_non_get_passthrough (SW.Request.mk "POST" "/") (.error .offline)
      [("/", SW.Response.mk 200 [] [2])] (by decide)⟩

/-- Claim C5: a successful install starting from an empty cache namespace
leaves the namespace with exactly one entry per element of the Shell Asset
Set, in order — no more, no fewer. -/
theorem C5_install_populates_exactly_assets (f : String → Except SW.NetErr SW.Response)
    (c : SW.Cache) (h : (SW.installHandler f []).populate = .ok c) :
    List.map Prod.fst c = SW.ASSETS := by
  cases h1 : f "/" with
  | error e => simp [SW.installHandler, SW.cacheAddAll, SW.ASSETS, SW.fetchAll, h1] at h
  | ok r1 =>
    cases h2 : f "/index.html" with
    | error e => simp [SW.installHandler, SW.cacheAddAll, SW.ASSETS, SW.fetchAll, h1, h2] at h
    | ok r2 =>
      cases h3 : f "/manifest.json" with
      | error e =>
        simp [SW.installHandler, SW.cacheAddAll, SW.ASSETS, SW.fetchAll, h1, h2, h3] at h
      | ok r3 =>
        simp only [SW.installHandler, SW.cacheAddAll, SW.ASSETS, SW.fetchAll, h1, h2, h3,
          Except.ok.injEq] at h
        rw [← h]
        simp [SW.putAll, SW.cachePut, SW.ASSETS]

/-- Concrete witness for C5: installing with an always-succeeding network
stores exactly the three shell assets. -/
theorem C5_install_populates_exactly_assets_witness :
    (SW.installHandler (fun _ => .ok (SW.Response.mk 200 [] [42])) []).populate =
      .ok [("/", SW.Response.mk 200 [] [42]), ("/index.html", SW.Response.mk 200 [] [42]),
           ("/manifest.json", SW.Response.mk 200 [] [42])] ∧
    List.map Prod.fst
        [("/", SW.Response.mk 200 [] [42]), ("/index.html", SW.Response.mk 200 [] [42]),
         ("/manifest.json", SW.Response.mk 200 [] [42])] = SW.ASSETS :=
  ⟨rfl,
    C5_install_populates_exactly_assets (fun _ => .ok (SW.Response.mk 200 [] [42]))
      [("/", SW.Response.mk 200 [] [42]), ("/index.html", SW.Response.mk 200 [] [42]),
       ("/manifest.json", SW.Response.mk 200 [] [42])] rfl⟩

/-- Claim C6: when the fetch of any shell asset fails, the install
population fails (`InstallFailure`) and the layer does not transition to
the `ACTIVE` state, even after the activate event. -/
theorem C6_install_failure_not_active (f : String → Except SW.NetErr SW.Response)
    (c : SW.Cache) (a : String) (e : SW.NetErr)
    (ha : a ∈ SW.ASSETS) (hf : f a = .error e) :
    (∃ e2, (SW.installHandler f c).populate = .error e2) ∧
    SW.stateAfterInstall f c ≠ SW.SWState.active ∧
    SW.activateHandler (SW.stateAfterInstall f c) ≠ SW.SWState.active := by
  rcases SW.fetchAll_error_of_mem f e SW.ASSETS a ha hf with ⟨e2, he2⟩
  have hpop : (SW.installHandler f c).populate = .error e2 := by
    unfold SW.installHandler SW.cacheAddAll
    rw [he2]
  have hstate : SW.stateAfterInstall f c = SW.SWState.uninstalled := by
    unfold SW.stateAfterInstall
    rw [hpop]
  refine ⟨⟨e2, hpop⟩, ?_, ?_⟩
  · rw [hstate]
    decide
  · rw [hstate]
    decide

/-- Concrete witness for C6: a network that rejects every fetch makes the
install fail and the layer stays out of the active state. -/
theorem C6_install_failure_not_active_witness :
    "/" ∈ SW.ASSETS ∧
    (fun _ => (Except.error SW.NetErr.timeout : Except SW.NetErr SW.Response)) "/" =
      .error SW.NetErr.timeout ∧
    ((∃ e2, (SW.installHandler (fun _ => .error SW.NetErr.timeout) []).populate = .error e2) ∧
     SW.stateAfterInstall (fun _ => .error SW.NetErr.timeout) [] ≠ SW.SWState.active ∧
     SW.activateHandler (SW.stateAfterInstall (fun _ => .error SW.NetErr.timeout) []) ≠
       SW.SWState.active) :=
  ⟨List.mem_cons_self _ _, rfl,
    C6_install_failure_not_active (fun _ => .error SW.NetErr.timeout) [] "/" SW.NetErr.timeout
      (List.mem_cons_self _ _) rfl⟩

/-- Claim C7: re-running the install population with the same network
against a namespace of the same version already populated by a successful
install leaves the namespace contents unchanged (idempotence;
re-adding an existing entry is a no-op overwrite). -/
theorem C7_install_idempotent (f : String → Except SW.NetErr SW.Response)
    (c0 c1 : SW.Cache) (h : (SW.installHandler f c0).populate = .ok c1) :
    (SW.installHandler f c1).populate = .ok c1 := by
  cases h1 : f "/" with
  | error e => simp [SW.installHandler, SW.cacheAddAll, SW.ASSETS, SW.fetchAll, h1] at h
  | ok r1 =>
    cases h2 : f "/index.html" with
    | error e => simp [SW.installHandler, SW.cacheAddAll, SW.ASSETS, SW.fetchAll, h1, h2] at h
    | ok r2 =>
      cases h3 : f "/manifest.json" with
      | error e =>
        simp [SW.installHandler, SW.cacheAddAll, SW.ASSETS, SW.fetchAll, h1, h2, h3] at h
      | ok r3 =>
        simp only [SW.installHandler, SW.cacheAddAll, SW.ASSETS, SW.fetchAll, h1, h2, h3,
          SW.putAll, List.foldl_cons, List.foldl_nil, Except.ok.injEq] at h ⊢
        have k1 : SW.keyIs c1 "/" r1 := by
          rw [← h]
          exact SW.keyIs_cachePut_other _ _ _ _ _ (by decide)
            (SW.keyIs_cachePut_other _ _ _ _ _ (by decide) (SW.keyIs_cachePut c0 "/" r1))
        have k2 : SW.keyIs c1 "/index.html" r2 := by
          rw [← h]
          exact SW.keyIs_cachePut_other _ _ _ _ _ (by decide)
            (SW.keyIs_cachePut (SW.cachePut c0 "/" r1) "/index.html" r2)
        have k3 : SW.keyIs c1 "/manifest.json" r3 := by
          rw [← h]
          exact SW.keyIs_cachePut _ "/manifest.json" r3
        rw [SW.cachePut_self c1 "/" r1 k1, SW.cachePut_self c1 "/index.html" r2 k2,
          SW.cachePut_self c1 "/manifest.json" r3 k3]

/-- Concrete witness for C7: installing twice over an empty namespace with
a fixed network yields the contents of the first install. -/
theorem C7_install_idempotent_witness :
    (SW.installHandler (fun _ => .ok (SW.Response.mk 200 [] [7])) []).populate =
      .ok [("/", SW.Response.mk 200 [] [7]), ("/index.html", SW.Response.mk 200 [] [7]),
           ("/manifest.json", SW.Response.mk 200 [] [7])] ∧
    (SW.installHandler (fun _ => .ok (SW.Response.mk 200 [] [7]))
        [("/", SW.Response.mk 200 [] [7]), ("/index.html", SW.Response.mk 200 [] [7]),
         ("/manifest.json", SW.Response.mk 200 [] [7])]).populate =
      .ok [("/", SW.Response.mk 200 [] [7]), ("/index.html", SW.Response.mk 200 [] [7]),
           ("/manifest.json", SW.Response.mk 200 [] [7])] :=
  ⟨rfl,
    C7_install_idempotent (fun _ => .ok (SW.Response.mk 200 [] [7])) []
      [("/", SW.Response.mk 200 [] [7]), ("/index.html", SW.Response.mk 200 [] [7]),
       ("/manifest.json", SW.Response.mk 200 [] [7])] rfl⟩

/-- Claim C8: steady-state request handling is read-only on the cache
namespace: for every request, network outcome and cache contents, the
cache after handling equals the cache before. -/
theorem C8_fetch_read_only (req : SW.Request) (net : Except SW.NetErr SW.Response)
    (c : SW.Cache) : (SW.fetchHandler req net c).cacheAfter = c := by
  unfold SW.fetchHandler
  by_cases h : req.method ≠ "GET"
  · rw [if_pos h]
  · rw [if_neg h]
    cases net with
    | ok r => rfl
    | error e =>
      cases hc : SW.cacheLookup c req.url with
      | none => simp [hc]
      | some r => simp [hc]

/-- Claim C9: during install handling, the skip-waiting request is issued
unconditionally — for every network behaviour and every prior cache
contents, including ones on which the awaited population fails. -/
theorem C9_skipWaiting_unconditional (f : String → Except SW.NetErr SW.Response)
    (c : SW.Cache) : (SW.installHandler f c).skipWaitingCalled = true := rfl

/-- Claim C10: the fetch handler is deterministic — two runs on requests
that agree on method and URL, with the same network outcome and the same
cache contents, produce identical results. -/
theorem C10_fetch_deterministic (r1 r2 : SW.Request) (n1 n2 : Except SW.NetErr SW.Response)
    (c1 c2 : SW.Cache) (hm : r1.method = r2.method) (hu : r1.url = r2.url)
    (hn : n1 = n2) (hc : c1 = c2) :
    SW.fetchHandler r1 n1 c1 = SW.fetchHandler r2 n2 c2 := by
  have hr : r1 = r2 := by
    cases r1
    cases r2
    simp_all
  rw [hr, hn, hc]

/-- Concrete witness for C10: two identical runs coincide. -/
theorem C10_fetch_deterministic_witness :
    SW.fetchHandler (SW.Request.mk "GET" "/a") (.error .offline) [] =
      SW.fetchHandler (SW.Request.mk "GET" "/a") (.error .offline) [] :=
  C10_fetch_deterministic (SW.Request.mk "GET" "/a") (SW.Request.mk "GET" "/a")
    (.error .offline) (.error .offline) [] [] rfl rfl rfl rfl
